import Mathlib

/-!
Shallow embedding of the guias-uniodonto repository.

The capture side lives in `src/bot.py` (sanitization, currency
normalization, field validation, and the filename built on confirmation)
and the batch side in `src/process_fotos.py` (filename decoding, the
table-row lookup, and the per-file upload loop).  Pure helpers are
translated directly; the Selenium/requests side effects of the batch
loop are modelled by explicit environment records recording the outcome
of each external call.  Python's `re` character classes `\w` and `\s`
are modelled on their ASCII fragment; all concrete inputs used below are
ASCII, so the modelled and real behaviours coincide on them.
-/

namespace Guias

/-- Models Python's `\s` class (ASCII fragment): the whitespace characters. -/
def isPySpace (c : Char) : Bool :=
  c == ' ' || c == '\t' || c == '\n' || c == '\r' || c == '\x0b' || c == '\x0c'

/-- Models Python's `\w` class (ASCII fragment): alphanumerics and underscore. -/
def isWordChar (c : Char) : Bool :=
  c.isAlphanum || c == '_'

/-- The characters kept by `re.sub(r"[^\w\s\-.,;]", "", text)` in
`sanitize_filename_component` (bot.py line 102). -/
def keepChar (c : Char) : Bool :=
  isWordChar c || isPySpace c || c == '-' || c == '.' || c == ',' || c == ';'

/-- Models `re.sub(r"\s+", rep, ...)` restricted to a single replacement
character: each maximal run of whitespace becomes one `rep`.  The boolean
argument records whether the previous character was whitespace. -/
def collapseAux (rep : Char) : Bool → List Char → List Char
  | _, [] => []
  | prevSp, c :: rest =>
    if isPySpace c then
      if prevSp then collapseAux rep true rest
      else rep :: collapseAux rep true rest
    else c :: collapseAux rep false rest

/-- Models Python's `str.strip()` (ASCII whitespace): drop whitespace from
both ends. -/
def stripList (l : List Char) : List Char :=
  ((l.dropWhile isPySpace).reverse.dropWhile isPySpace).reverse

/-- `str.strip()` on a `String`. -/
def pyStrip (s : String) : String :=
  String.mk (stripList s.toList)

/-- The list-level body of `sanitize_filename_component` (bot.py lines
87-106): strip, drop characters outside the safe set, replace whitespace
runs by `'_'`, truncate to 80 characters. -/
def sanitizeList (l : List Char) : List Char :=
  (collapseAux '_' false ((stripList l).filter keepChar)).take 80

/-- Models `sanitize_filename_component` (bot.py lines 87-106); the
`if not text` guard returns `""` on the empty string. -/
def sanitize_filename_component (s : String) : String :=
  if s = "" then "" else String.mk (sanitizeList s.toList)

/-- Finds the first occurrence of `sep` in `l`, returning the part before
it and the part after it; `none` when `sep` does not occur.  This is the
one-step engine of Python's `str.split(sep)`. -/
def breakOnSep (sep : List Char) : List Char → Option (List Char × List Char)
  | [] => none
  | c :: rest =>
    if sep.isPrefixOf (c :: rest) then some ([], (c :: rest).drop sep.length)
    else
      match breakOnSep sep rest with
      | none => none
      | some (pre, post) => some (c :: pre, post)

/-- The fixed filename separator `" - "` used by both sides. -/
def sepChars : List Char := [' ', '-', ' ']

/-- Numeric value of a list of decimal digit characters, most significant
first. -/
def digitsVal (l : List Char) : Nat :=
  l.foldl (fun n c => n * 10 + (c.toNat - '0'.toNat)) 0

/-- Models Python's `float()` on the strings `parse_currency` feeds it
(digits and dots only after the separator normalization): the value is
`mantissa / 10 ^ fracLen`, returned as the pair `(mantissa, fracLen)`;
`none` models the `ValueError` raised on malformed input such as a
string with two dots. -/
def pyFloatDD (l : List Char) : Option (Nat × Nat) :=
  if (∀ c ∈ l, c.isDigit ∨ c = '.') ∧ l.count '.' ≤ 1 ∧ (∃ c ∈ l, c.isDigit = true) then
    some (digitsVal (l.filter Char.isDigit), ((l.dropWhile (fun c => c != '.')).drop 1).length)
  else none

/-- Round `n / d` to the nearest integer, ties to even — the rounding of
Python's `f"{value:.2f}"` on values that are exact in binary; every value
this development evaluates is exact at two decimals, where no tie arises. -/
def roundHalfEven (n d : Nat) : Nat :=
  let q := n / d
  let r := n % d
  if 2 * r < d then q else if d < 2 * r then q + 1 else if q % 2 = 0 then q else q + 1

/-- The amount in hundredths represented by `(mantissa, fracLen)`. -/
def centsOf (m k : Nat) : Nat :=
  if k ≤ 2 then m * 10 ^ (2 - k) else roundHalfEven m (10 ^ (k - 2))

/-- Insert `','` after every third digit of a reversed digit list — the
thousands grouping of Python's `f"{value:,.2f}"`, seen from the right. -/
def groupThousandsRev : List Char → List Char
  | a :: b :: c :: d :: rest => a :: b :: c :: ',' :: groupThousandsRev (d :: rest)
  | l => l

/-- Models `f"{value:,.2f}"` for the nonnegative amount `cents / 100`:
comma-grouped integer part, dot, exactly two fraction digits. -/
def usFormat (cents : Nat) : String :=
  let whole := cents / 100
  let frac := cents % 100
  let grouped := (groupThousandsRev (Nat.toDigits 10 whole).reverse).reverse
  let fracDigits := if frac < 10 then '0' :: Nat.toDigits 10 frac else Nat.toDigits 10 frac
  String.mk (grouped ++ '.' :: fracDigits)

/-- Models the chain `.replace(",", "TEMP").replace(".", ",").replace("TEMP", ".")`
(bot.py line 143).  On its input — digits, commas and dots only, so the
marker `"TEMP"` can only arise from a replaced comma — the chain swaps
commas and dots. -/
def swapSeps (s : String) : String :=
  String.mk (s.toList.map fun c => if c == ',' then '.' else if c == '.' then ',' else c)

/-- Models `parse_currency` (bot.py lines 108-147). -/
def parse_currency (text : String) : String :=
  if text = "" then "0,00"
  else
    let cleaned := (stripList text.toList).filter fun c => c.isDigit || c == ',' || c == '.'
    if cleaned = [] then "0,00"
    else
      let cleaned2 :=
        if cleaned.contains ',' && cleaned.contains '.' then
          (cleaned.filter fun c => c != '.').map fun c => if c == ',' then '.' else c
        else if cleaned.contains ',' then
          cleaned.map fun c => if c == ',' then '.' else c
        else cleaned
      match pyFloatDD cleaned2 with
      | none => "0,00"
      | some (m, k) => swapSeps (usFormat (centsOf m k))

/-- One field of the extraction payload dictionary: the key may be absent,
present with the JSON null (the sentinel normalization of
`extract_guia_info`, bot.py lines 281-284, maps `""`, `"null"` and `"N/A"`
to None), or present with a string. -/
inductive Field where
  | absent
  | null
  | val (s : String)
deriving DecidableEq

/-- The four-field payload `{nome, senha, data, valor}` consumed by the
validator and by `handle_confirmation`. -/
structure ExtractedInfo where
  nome : Field
  senha : Field
  data : Field
  valor : Field
deriving DecidableEq

/-- Models `info.get(key, "").strip()`: an absent key yields the default
`""`; a key holding None makes `.strip()` raise `AttributeError`, modelled
as `Except.error`. -/
def getStrip : Field → Except Unit String
  | .absent => .ok ""
  | .null => .error ()
  | .val s => .ok (pyStrip s)

/-- Models `re.match(r"\d{2}/\d{2}/\d{4}", data)`: anchored at the start
only, so trailing characters are allowed. -/
def matchDDMMYYYY (s : String) : Bool :=
  match s.toList with
  | d1 :: d2 :: '/' :: m1 :: m2 :: '/' :: y1 :: y2 :: y3 :: y4 :: _ =>
    d1.isDigit && d2.isDigit && m1.isDigit && m2.isDigit &&
      y1.isDigit && y2.isDigit && y3.isDigit && y4.isDigit
  | _ => false

/-- Problem string appended for an invalid name (bot.py line 172). -/
def nomeProblem : String := "Nome não identificado ou inválido"

/-- Problem string appended for a missing access code (bot.py line 177). -/
def senhaProblem : String := "Senha não identificada"

/-- Problem string appended for an invalid date (bot.py line 182). -/
def dataProblem : String := "Data inválida ou ausente (esperado: DD/MM/AAAA)"

/-- Problem string appended for a missing amount (bot.py line 187). -/
def valorProblem : String := "Valor não identificado"

/-- The four independent checks of `validate_extracted_data` applied to the
already-stripped field strings, in source order. -/
def checkProblems (nome senha data valor : String) : List String :=
  (if nome = "" ∨ nome = "null" ∨ nome.length < 3 then [nomeProblem] else [])
    ++ (if senha = "" ∨ senha = "null" then [senhaProblem] else [])
    ++ (if matchDDMMYYYY data then [] else [dataProblem])
    ++ (if valor = "" ∨ valor = "null" then [valorProblem] else [])

/-- Models `validate_extracted_data` (bot.py lines 157-189).  Each field is
read with `info.get(key, "").strip()`, which raises on a None value; with
all reads successful the four checks run independently and
`(len(problems) == 0, problems)` is returned. -/
def validate_extracted_data (info : ExtractedInfo) : Except Unit (Bool × List String) := do
  let nome ← getStrip info.nome
  let senha ← getStrip info.senha
  let data ← getStrip info.data
  let valor ← getStrip info.valor
  let problems := checkProblems nome senha data valor
  return (problems.isEmpty, problems)

/-- Models Python's `x or default` for an optional field read with
`info.get(key)`: None (absent key or null value) and the empty string are
falsy. -/
def pyOr (f : Field) (default : String) : String :=
  match f with
  | .absent => default
  | .null => default
  | .val s => if s = "" then default else s

/-- Models the filename construction of `handle_confirmation`
(bot.py lines 487-499): sanitize name, access code and date, normalize the
amount, and join with `" - "`, ending in the fixed `GTO` token and the
image extension. -/
def build_filename (info : ExtractedInfo) (ext : String) : String :=
  let nome := sanitize_filename_component (pyOr info.nome "SEM_NOME")
  let senha := sanitize_filename_component (pyOr info.senha "SEM_SENHA")
  let data := sanitize_filename_component (pyOr info.data "SEM_DATA")
  let preco_fmt := parse_currency (pyOr info.valor "0,00")
  nome ++ " - " ++ senha ++ " - " ++ data ++ " - " ++ preco_fmt ++ " - GTO" ++ ext

/-- Models Python's `str.title()` (ASCII fragment): a letter is uppercased
when the previous character is not a letter, lowercased otherwise. -/
def pyTitleAux : Bool → List Char → List Char
  | _, [] => []
  | prevAlpha, c :: rest =>
    if c.isAlpha then
      (if prevAlpha then c.toLower else c.toUpper) :: pyTitleAux true rest
    else c :: pyTitleAux false rest

/-- `str.title()` on a `String`. -/
def pyTitle (s : String) : String :=
  String.mk (pyTitleAux false s.toList)

/-- Models `parse_filename` (process_fotos.py lines 185-206): split the
filename on `" - "`; fewer than three parts raise `ValueError`, modelled
as `Except.error`; otherwise part 0 has underscores mapped to spaces and
is title-cased, part 1 has hyphens mapped to slashes, and part 2 is cut at
its first dot. -/
def parse_filename (file_name : String) : Except Unit (String × String × String) :=
  match breakOnSep sepChars file_name.toList with
  | none => .error ()
  | some (p0, rest1) =>
    match breakOnSep sepChars rest1 with
    | none => .error ()
    | some (p1, rest2) =>
      let p2 := match breakOnSep sepChars rest2 with
        | none => rest2
        | some (pr, _) => pr
      let nome := pyTitle (String.mk (p0.map fun c => if c == '_' then ' ' else c))
      let data_site := String.mk (p1.map fun c => if c == '-' then '/' else c)
      let anexo := String.mk (p2.takeWhile fun c => c != '.')
      .ok (nome, data_site, anexo)

/-- XPath's `normalize-space()`: strip leading and trailing whitespace and
collapse internal runs to a single space — the normalization the row
lookup's XPath applies to the cell texts. -/
def normSpace (s : String) : String :=
  String.mk (collapseAux ' ' false (stripList s.toList))

/-- A row of the remote listing as the batch side sees it: date cell
(`td[3]`), name cell (`td[4]`, the link text), the amount column the
listing also shows, and whether the row already carries an attachment. -/
structure LedgerRow where
  date : String
  name : String
  amount : String
  hasAttachment : Bool
deriving DecidableEq

/-- The row predicate of `find_and_click_user`'s XPath
(process_fotos.py lines 272-277): the name cell and the date cell must
equal the searched strings exactly, up to `normalize-space()`. -/
def rowMatches (nome data : String) (r : LedgerRow) : Bool :=
  normSpace r.name == nome && normSpace r.date == data

/-- Models the row lookup of `find_and_click_user` (process_fotos.py lines
263-301): the first row satisfying the XPath predicate, `none` when the
lookup raises `NoSuchElementException` (caught, reported as failure). -/
def find_and_click_user (rows : List LedgerRow) (nome data : String) : Option LedgerRow :=
  rows.find? (rowMatches nome data)

/-- Modelled from the spec (§4.5), for comparison with the code's row
lookup: subject-name equality that is case-insensitive (diacritic folding
is not modelled; the comparison below involves none) combined with
date equality or amount equality. -/
def specRowMatch (recName recDate recAmount : String) (r : LedgerRow) : Bool :=
  (String.mk (r.name.toList.map Char.toLower) == String.mk (recName.toList.map Char.toLower))
    && (r.date == recDate || r.amount == recAmount)

/-- The outcomes of the external calls `process_file` makes for one
artifact: the rows shown by the listing after the search, whether the
upload page exposes the `controle` code and session cookie, whether the
upload POST returns HTTP 200, and whether the finalization step succeeds.
The navigation steps themselves are taken as succeeding; their failures
are caught by the same `except` and also yield a per-file failure. -/
structure Env where
  rows : List LedgerRow
  navOk : Bool
  uploadOk : Bool
  completeOk : Bool
deriving DecidableEq

/-- Models `process_file` (process_fotos.py lines 432-482) as a function of
the external outcomes, returning the boolean result together with the
number of upload POST calls performed.  A `ValueError` from
`parse_filename` or `click_anexo_button` is caught by the surrounding
`except` and becomes `False`; `upload_file` returns `False` before the
POST when the `controle` code or cookie is missing; no step consults
`hasAttachment` and no step re-reads the row after the upload. -/
def process_file (env : Env) (file_name : String) : Bool × Nat :=
  match parse_filename file_name with
  | .error _ => (false, 0)
  | .ok (nome, data, anexo) =>
    match find_and_click_user env.rows nome data with
    | none => (false, 0)
    | some _ =>
      if anexo == "GTO" || anexo == "RX" then
        if env.navOk then
          if env.uploadOk then
            if env.completeOk then (true, 1) else (false, 1)
          else (false, 1)
        else (false, 0)
      else (false, 0)

/-- The per-file counting loop of `process_all_files`
(process_fotos.py lines 517-532). -/
def countResults (envs : String → Env) (files : List String) (acc : Nat × Nat) : Nat × Nat :=
  match files with
  | [] => acc
  | f :: rest =>
    if (process_file (envs f) f).1 then countResults envs rest (acc.1 + 1, acc.2)
    else countResults envs rest (acc.1, acc.2 + 1)

/-- The result of one batch run: the two counters printed in the summary
and the mailbox contents after the run.  `process_all_files` never removes
a file (no `os.remove`/`unlink` occurs in process_fotos.py), so the
mailbox after the run is the input file list unchanged. -/
structure RunSummary where
  successful : Nat
  failed : Nat
  remaining : List String
deriving DecidableEq

/-- Models `process_all_files` (process_fotos.py lines 484-551): every file
is processed in order, each outcome incrementing exactly one counter, and
the mailbox is left untouched. -/
def process_all_files (envs : String → Env) (files : List String) : RunSummary :=
  let counts := countResults envs files (0, 0)
  { successful := counts.1, failed := counts.2, remaining := files }

/-- A fully populated, well-formed extraction payload used as the concrete
record in several evaluations. -/
def mariaInfo : ExtractedInfo :=
  { nome := .val "MARIA SILVA", senha := .val "1234567-001",
    data := .val "10/10/2025", valor := .val "65,00" }

/-- A mailbox filename in the three-part format `parse_filename` documents. -/
def gtoFile : String := "MARIA_SILVA - 10-10-2025 - GTO.jpg"

/-- A listing row for the same subject, already carrying an attachment. -/
def mariaRowAttached : LedgerRow :=
  { date := "10/10/2025", name := "Maria Silva", amount := "65,00", hasAttachment := true }

/-- An environment whose listing shows the already-attached row and whose
external calls all succeed. -/
def envAttached : Env :=
  { rows := [mariaRowAttached], navOk := true, uploadOk := true, completeOk := true }

/-- A listing row for the same subject with a different service date but
the same amount, and no attachment yet. -/
def rowOtherDate : LedgerRow :=
  { date := "11/10/2025", name := "Maria Silva", amount := "65,00", hasAttachment := false }

/-- A listing row matching `gtoFile` with no attachment yet. -/
def mariaRowFresh : LedgerRow :=
  { date := "10/10/2025", name := "Maria Silva", amount := "65,00", hasAttachment := false }

/-- An environment whose listing shows the fresh row and whose external
calls all succeed. -/
def envFresh : Env :=
  { rows := [mariaRowFresh], navOk := true, uploadOk := true, completeOk := true }

/-- Claim C1: decoding the artifact key produced by encoding a validated
record is claimed to return the encoded fields; evaluating the code at a
concrete record refutes this.  The confirm-time filename has five `" - "`
parts while the decoder reads three positionally, so the decoded "date" is
the access code, the decoded "document type" is the date's digits (the
slash-stripped sanitized date), and the name comes back title-cased. -/
theorem roundtrip_eval_at_maria :
    parse_filename (build_filename mariaInfo ".jpg")
      = .ok ("Maria Silva", "1234567/001", "10102025") := rfl

/-- Claim C2: `parse_currency` is claimed (and its own docstring states)
to map `"1.500.50"` to `"1.500,50"`; the dot-only branch leaves both dots
in place, `float` raises `ValueError`, and the fallback `"0,00"` is
returned.  The other three documented examples do hold. -/
theorem parse_currency_eval :
    parse_currency "65.00" = "65,00" ∧ parse_currency "1500,50" = "1.500,50" ∧
      parse_currency "abc" = "0,00" ∧ parse_currency "1.500.50" = "0,00" :=
  ⟨rfl, rfl, rfl, rfl⟩

/-- Claim C3, counterexample: a fully populated record whose service date
is the impossible calendar date 31/02/2024 validates with `ok = true` and
no problems — the regex `\d{2}/\d{2}/\d{4}` checks shape only, never
calendar validity — contradicting the claimed `ok = false` with a
date-related problem. -/
theorem validator_accepts_31_02_2024 :
    validate_extracted_data
      { nome := .val "MARIA SILVA", senha := .val "1234567-001",
        data := .val "31/02/2024", valor := .val "65,00" }
      = .ok (true, []) := rfl

/-- Claim C4: the validator is claimed total on payloads whose fields may
hold the null value; evaluating it on a payload whose name is null (as
`extract_guia_info`'s sentinel normalization produces) shows the
`.get("nome", "").strip()` read raising `AttributeError` instead of
returning a problem list. -/
theorem validator_crashes_on_null_field :
    validate_extracted_data
      { nome := .null, senha := .val "1234567-001",
        data := .val "01/01/2024", valor := .val "65,00" }
      = .error () := rfl

/-- Claim C6: the persisted filename is claimed to carry the date as
`DD-MM-YYYY`; sanitization strips the slashes entirely (they are outside
the safe character set), so the date component is the bare digit string,
and the document-type token is the fixed `GTO` with no user choice. -/
theorem wire_format_eval_at_maria :
    build_filename mariaInfo ".jpg"
        = "MARIA_SILVA - 1234567-001 - 10102025 - 65,00 - GTO.jpg" ∧
      sanitize_filename_component "10/10/2025" = "10102025" :=
  ⟨rfl, rfl⟩

/-- Claim C7, counterexample: a row whose name matches and whose amount
equals the record's amount — which the claimed match rule accepts — is not
found by the code's lookup, because the XPath requires the date cell to
match and never consults the amount. -/
theorem matcher_ignores_amount :
    specRowMatch "Maria Silva" "10/10/2025" "65,00" rowOtherDate = true ∧
      find_and_click_user [rowOtherDate] "Maria Silva" "10/10/2025" = none :=
  ⟨rfl, rfl⟩

/-- Claim C8, counterexample: against a row that already shows the
attached indicator, a run of `process_file` performs one upload call and
reports success — there is no pre-upload indicator check that would
short-circuit with zero upload calls, and no post-upload re-read. -/
theorem engine_reuploads_attached_row :
    process_file envAttached gtoFile = (true, 1) ∧
      envAttached.rows.all (fun r => r.hasAttachment) = true :=
  ⟨rfl, rfl⟩

/-- Claim C9, counterexample: a run over a single artifact that succeeds
end-to-end counts it as successful yet leaves the mailbox unchanged — the
orchestrator never deletes an artifact, where the claim requires the
verified artifact's file to be removed. -/
theorem orchestrator_keeps_verified_artifact :
    process_all_files (fun _ => envFresh) [gtoFile]
      = { successful := 1, failed := 0, remaining := [gtoFile] } := rfl

/-- Every character produced by the whitespace-collapsing pass is either
the replacement character or a non-whitespace character of the input. -/
theorem collapseAux_mem (rep : Char) (b : Bool) (l : List Char) (c : Char)
    (hc : c ∈ collapseAux rep b l) : c = rep ∨ (c ∈ l ∧ isPySpace c = false) := by
  induction l generalizing b with
  | nil => simp [collapseAux] at hc
  | cons a rest ih =>
    by_cases ha : isPySpace a = true
    · cases b with
      | true =>
        simp only [collapseAux, ha, if_true] at hc
        rcases ih _ hc with h | ⟨h1, h2⟩
        · exact .inl h
        · exact .inr ⟨List.mem_cons_of_mem _ h1, h2⟩
      | false =>
        simp only [collapseAux, ha, if_true] at hc
        rcases List.mem_cons.mp hc with h | h
        · exact .inl h
        · rcases ih _ h with h' | ⟨h1, h2⟩
          · exact .inl h'
          · exact .inr ⟨List.mem_cons_of_mem _ h1, h2⟩
    · rw [Bool.not_eq_true] at ha
      simp only [collapseAux, ha, Bool.false_eq_true, if_false] at hc
      rcases List.mem_cons.mp hc with h | h
      · exact .inr ⟨h ▸ List.mem_cons_self a rest, h ▸ ha⟩
      · rcases ih _ h with h' | ⟨h1, h2⟩
        · exact .inl h'
        · exact .inr ⟨List.mem_cons_of_mem _ h1, h2⟩

/-- On a list without whitespace the collapsing pass is the identity. -/
theorem collapseAux_id (rep : Char) (b : Bool) (l : List Char)
    (h : ∀ c ∈ l, isPySpace c = false) : collapseAux rep b l = l := by
  induction l generalizing b with
  | nil => rfl
  | cons a rest ih =>
    have ha := h a (List.mem_cons_self a rest)
    simp only [collapseAux, ha, Bool.false_eq_true, if_false]
    exact congrArg _ (ih _ (fun c hc => h c (List.mem_cons_of_mem _ hc)))

/-- `dropWhile` is the identity when no element satisfies the predicate. -/
theorem dropWhile_id (p : Char → Bool) (l : List Char)
    (h : ∀ c ∈ l, p c = false) : l.dropWhile p = l := by
  cases l with
  | nil => rfl
  | cons a rest =>
    simp [List.dropWhile_cons, h a (List.mem_cons_self a rest)]

/-- Stripping is the identity on a list without whitespace. -/
theorem stripList_id (l : List Char) (h : ∀ c ∈ l, isPySpace c = false) :
    stripList l = l := by
  unfold stripList
  rw [dropWhile_id _ _ h,
    dropWhile_id _ _ (fun c hc => h c (List.mem_reverse.mp hc)),
    List.reverse_reverse]

/-- Every character of a sanitized component is in the safe set and is not
whitespace. -/
theorem sanitizeList_chars (l : List Char) :
    ∀ c ∈ sanitizeList l, keepChar c = true ∧ isPySpace c = false := by
  intro c hc
  have hc2 : c ∈ collapseAux '_' false ((stripList l).filter keepChar) :=
    List.take_subset _ _ hc
  rcases collapseAux_mem _ _ _ _ hc2 with h | ⟨hmem, hsp⟩
  · subst h; exact ⟨by decide, by decide⟩
  · exact ⟨(List.mem_filter.mp hmem).2, hsp⟩

/-- The list-level sanitizer is idempotent: its output has no whitespace,
only safe characters, and at most 80 characters, so stripping, filtering,
collapsing and truncating it again change nothing. -/
theorem sanitizeList_idem (l : List Char) :
    sanitizeList (sanitizeList l) = sanitizeList l := by
  have hch := sanitizeList_chars l
  have h1 : stripList (sanitizeList l) = sanitizeList l :=
    stripList_id _ (fun c hc => (hch c hc).2)
  have h2 : (sanitizeList l).filter keepChar = sanitizeList l :=
    List.filter_eq_self.mpr (fun c hc => (hch c hc).1)
  have h3 : collapseAux '_' false (sanitizeList l) = sanitizeList l :=
    collapseAux_id _ _ _ (fun c hc => (hch c hc).2)
  have h4 : (sanitizeList l).take 80 = sanitizeList l := by
    show ((collapseAux '_' false ((stripList l).filter keepChar)).take 80).take 80 = _
    rw [List.take_take]
    norm_num
    rfl
  calc sanitizeList (sanitizeList l)
      = (collapseAux '_' false ((stripList (sanitizeList l)).filter keepChar)).take 80 := rfl
    _ = sanitizeList l := by rw [h1, h2, h3, h4]

/-- Claim C5: `sanitize_filename_component` is idempotent — applying it
twice gives the same result as applying it once, for every string. -/
theorem sanitize_idempotent (s : String) :
    sanitize_filename_component (sanitize_filename_component s)
      = sanitize_filename_component s := by
  unfold sanitize_filename_component
  by_cases h : s = ""
  · simp [h]
  · rw [if_neg h]
    by_cases h2 : String.mk (sanitizeList s.toList) = ""
    · rw [if_pos h2, h2]
    · rw [if_neg h2]
      exact congrArg String.mk (sanitizeList_idem s.toList)

/-- No character of a sanitized component is whitespace. -/
theorem sanitize_no_space (s : String) :
    ∀ c ∈ (sanitize_filename_component s).toList, isPySpace c = false := by
  intro c hc
  unfold sanitize_filename_component at hc
  by_cases h : s = ""
  · rw [if_pos h] at hc
    simp at hc
  · rw [if_neg h] at hc
    exact (sanitizeList_chars s.toList c hc).2

/-- The separator search comes up empty on any character list that
contains no space character. -/
theorem breakOnSep_sep_none (l : List Char)
    (h : ∀ c ∈ l, isPySpace c = false) : breakOnSep sepChars l = none := by
  induction l with
  | nil => rfl
  | cons a rest ih =>
    have ha : a ≠ ' ' := by
      intro hEq
      have := h a (List.mem_cons_self a rest)
      rw [hEq] at this
      simp [isPySpace] at this
    have hpre : sepChars.isPrefixOf (a :: rest) = false := by
      simp [sepChars, List.isPrefixOf]
      intro hEq
      exact absurd hEq.symm ha
    simp only [breakOnSep, hpre, Bool.false_eq_true, if_false]
    rw [ih (fun c hc => h c (List.mem_cons_of_mem _ hc))]

/-- Claim C10: the sanitizer's output contains no whitespace character at
all, so the fixed separator `" - "` can never occur inside a sanitized
filename component — the splitter that the batch side uses finds no
occurrence of the separator in it. -/
theorem sanitize_separator_safe (s : String) :
    ((sanitize_filename_component s).toList.all fun c => !(isPySpace c)) = true ∧
      breakOnSep sepChars (sanitize_filename_component s).toList = none := by
  constructor
  · rw [List.all_eq_true]
    intro c hc
    simp [sanitize_no_space s c hc]
  · exact breakOnSep_sep_none _ (sanitize_no_space s)

/-- The date problem string appears in the check output exactly when the
date pattern check fails; the other three checks append different
strings. -/
theorem dataProblem_mem_checkProblems (a b c d : String) :
    dataProblem ∈ checkProblems a b c d ↔ matchDDMMYYYY c = false := by
  have hn : dataProblem ≠ nomeProblem := by decide
  have hs : dataProblem ≠ senhaProblem := by decide
  have hv : dataProblem ≠ valorProblem := by decide
  unfold checkProblems
  by_cases h1 : a = "" ∨ a = "null" ∨ a.length < 3 <;>
    by_cases h2 : b = "" ∨ b = "null" <;>
      by_cases h3 : matchDDMMYYYY c = true <;>
        by_cases h4 : d = "" ∨ d = "null" <;>
          simp_all

/-- The returned flag is true exactly when the problem list is empty. -/
theorem checkProblems_isEmpty_iff (a b c d : String) :
    (checkProblems a b c d).isEmpty = true ↔ checkProblems a b c d = [] :=
  List.isEmpty_iff

/-- Claim C3 (amended): with all four fields present as strings the
validator returns a pair whose problem list contains the date problem
exactly when the stripped date fails the `\d{2}/\d{2}/\d{4}` shape check —
calendar validity is never examined — and whose flag is true exactly when
the list is empty; a payload without a date key gets the date problem and
a false flag. -/
theorem validator_date_rule :
    (∀ n s d v : String, ∃ ok probs,
      validate_extracted_data ⟨.val n, .val s, .val d, .val v⟩ = .ok (ok, probs) ∧
        ((dataProblem ∈ probs) ↔ matchDDMMYYYY (pyStrip d) = false) ∧
        (ok = true ↔ probs = [])) ∧
    (∀ n s v : String, ∃ ok probs,
      validate_extracted_data ⟨.val n, .val s, .absent, .val v⟩ = .ok (ok, probs) ∧
        dataProblem ∈ probs ∧ ok = false) := by
  constructor
  · intro n s d v
    refine ⟨_, _, rfl, ?_, ?_⟩
    · exact dataProblem_mem_checkProblems _ _ _ _
    · exact checkProblems_isEmpty_iff _ _ _ _
  · intro n s v
    refine ⟨_, _, rfl, ?_, ?_⟩
    · rw [dataProblem_mem_checkProblems]
      rfl
    · have hmem : dataProblem ∈ checkProblems (pyStrip n) (pyStrip s) "" (pyStrip v) := by
        rw [dataProblem_mem_checkProblems]
        rfl
      rcases h : checkProblems (pyStrip n) (pyStrip s) "" (pyStrip v) with _ | ⟨x, xs⟩
      · rw [h] at hmem
        simp at hmem
      · rfl

/-- Claim C7 (amended): the code's row lookup selects a row exactly when
some listed row's whitespace-normalized name cell equals the searched name
verbatim — the comparison is case- and diacritic-sensitive — and its
normalized date cell equals the searched date; the amount is never
consulted and zero such rows mean no row is selected. -/
theorem matcher_name_and_date_only :
    ∀ (rows : List LedgerRow) (nome data : String),
      (∃ r, find_and_click_user rows nome data = some r) ↔
        ∃ r, r ∈ rows ∧ normSpace r.name = nome ∧ normSpace r.date = data := by
  intro rows nome data
  unfold find_and_click_user
  induction rows with
  | nil => simp
  | cons a rest ih =>
    by_cases ha : rowMatches nome data a = true
    · rw [List.find?_cons_of_pos rest ha]
      unfold rowMatches at ha
      rw [Bool.and_eq_true, beq_iff_eq, beq_iff_eq] at ha
      constructor
      · intro _
        exact ⟨a, List.mem_cons_self a rest, ha.1, ha.2⟩
      · intro _
        exact ⟨a, rfl⟩
    · rw [List.find?_cons_of_neg rest ha, ih]
      constructor
      · rintro ⟨r, hmem, h1, h2⟩
        exact ⟨r, List.mem_cons_of_mem _ hmem, h1, h2⟩
      · rintro ⟨r, hmem, h1, h2⟩
        rcases List.mem_cons.mp hmem with hEq | hmem'
        · exfalso
          apply ha
          unfold rowMatches
          rw [Bool.and_eq_true, beq_iff_eq, beq_iff_eq, ← hEq] at *
          exact ⟨h1, h2⟩
        · exact ⟨r, hmem', h1, h2⟩

/-- The row predicate reads only the name and date cells, so rewriting the
attachment flag leaves it unchanged. -/
theorem rowMatches_set_attachment (nome data : String) (b : Bool) (r : LedgerRow) :
    rowMatches nome data { r with hasAttachment := b } = rowMatches nome data r := rfl

/-- The row lookup over a listing with every attachment flag rewritten
returns the correspondingly rewritten result. -/
theorem find_user_set_attachment (rows : List LedgerRow) (nome data : String) (b : Bool) :
    find_and_click_user (rows.map fun r => { r with hasAttachment := b }) nome data
      = (find_and_click_user rows nome data).map fun r => { r with hasAttachment := b } := by
  unfold find_and_click_user
  rw [List.find?_map]
  rfl

/-- Claim C8 (amended): the engine never consults the attached indicator —
its outcome and upload-call count are unchanged when every row's
attachment flag is rewritten, so a rerun over an already-attached row
uploads again — and every successful run performs exactly one upload call;
success means the upload POST returned 200 and the finalization step
succeeded, with no verification re-read afterwards. -/
theorem engine_ignores_attachment :
    (∀ (env : Env) (b : Bool) (f : String),
      process_file { env with rows := env.rows.map fun r => { r with hasAttachment := b } } f
        = process_file env f) ∧
    (∀ (env : Env) (f : String), (process_file env f).1 = true → (process_file env f).2 = 1) := by
  constructor
  · intro env b f
    unfold process_file
    rcases hp : parse_filename f with u | ⟨nome, data, anexo⟩
    · rfl
    · simp only
      rw [find_user_set_attachment]
      rcases hf : find_and_click_user env.rows nome data with _ | r
      · rfl
      · rfl
  · intro env f h
    unfold process_file at h ⊢
    rcases hp : parse_filename f with u | ⟨nome, data, anexo⟩
    · rw [hp] at h
      simp at h
    · rw [hp] at h
      dsimp only at h ⊢
      rcases hf : find_and_click_user env.rows nome data with _ | r
      · rw [hf] at h
        simp at h
      · rw [hf] at h
        dsimp only at h ⊢
        by_cases h1 : (anexo == "GTO" || anexo == "RX") = true <;>
          by_cases h2 : env.navOk = true <;>
            by_cases h3 : env.uploadOk = true <;>
              by_cases h4 : env.completeOk = true <;>
                simp_all

/-- Witness for the one-upload clause of the amended C8 theorem at the
already-attached environment. -/
theorem engine_ignores_attachment_witness :
    (process_file envAttached gtoFile).2 = 1 :=
  engine_ignores_attachment.2 envAttached gtoFile (by rfl)

/-- The counting loop adds exactly one to one of the two counters per
file. -/
theorem countResults_sum (envs : String → Env) (files : List String) (acc : Nat × Nat) :
    (countResults envs files acc).1 + (countResults envs files acc).2
      = acc.1 + acc.2 + files.length := by
  induction files generalizing acc with
  | nil => simp [countResults]
  | cons f rest ih =>
    by_cases hf : (process_file (envs f) f).1 = true <;>
      simp only [countResults, hf, Bool.false_eq_true, if_true, if_false, List.length_cons] <;>
        rw [ih] <;> omega

/-- Claim C9 (amended): every artifact is processed, each counting as
exactly one success or one failure, so the counters sum to the total; the
mailbox is left unchanged — no artifact is deleted, verified or not; and a
filename that fails to decode makes its run fail with zero upload calls
instead of raising out of the loop. -/
theorem orchestrator_counts_and_keeps_files :
    (∀ (envs : String → Env) (files : List String),
      (process_all_files envs files).successful + (process_all_files envs files).failed
          = files.length ∧
        (process_all_files envs files).remaining = files) ∧
    (∀ (env : Env) (f : String),
      parse_filename f = .error () → process_file env f = (false, 0)) := by
  constructor
  · intro envs files
    refine ⟨?_, rfl⟩
    have h := countResults_sum envs files (0, 0)
    simpa [process_all_files] using h
  · intro env f h
    unfold process_file
    rw [h]

/-- Witness for the decode-failure clause of the amended C9 theorem at a
filename without the separator. -/
theorem orchestrator_counts_witness :
    process_file envFresh "short.jpg" = (false, 0) :=
  orchestrator_counts_and_keeps_files.2 envFresh "short.jpg" (by rfl)

end Guias
